import Mathlib

/-!
Verification of the GODiscord bot (src/main.go): a shallow embedding of the
command registry, the text-command dispatcher, the interaction dispatcher,
the three command handlers (ping, echo, help) in both their text and
interaction forms, and the ready-event slash-command registration sequence.

Durations are Go `time.Duration` values: int64 counts of nanoseconds.
Handler executions are modelled as pure functions from an explicit session
environment (the discordgo `Session`: the bot identity, the heartbeat
latency, the outcome of each outbound call and metadata fetch, and the
measured elapsed times, which in Go come from the wall clock) to the list
of outbound gateway calls made, the log lines printed, and whether the
handler panicked (Go runtime panics such as a nil-pointer dereference or an
index out of range are modelled explicitly, since the source performs no
recovery).
-/

namespace GODiscord

/-! ## Go `time.Duration` arithmetic and formatting -/

/-- `time.Duration` is an int64; its minimum value (`minDuration` in Go's time package). -/
def minDuration : Int := -(2 ^ 63)

/-- The maximum `time.Duration` (`maxDuration` in Go's time package). -/
def maxDuration : Int := 2 ^ 63 - 1

/-- Reduce an unbounded integer to Go int64 two's-complement wrap-around semantics. -/
def wrap64 (x : Int) : Int := (x + 2 ^ 63) % 2 ^ 64 - 2 ^ 63

/-- Go `time.lessThanHalf(x, m)`: whether `x+x < m`. In the source both arguments are
converted to uint64; at every call site `0 ≤ x < m`, so plain integer comparison agrees. -/
def lessThanHalf (x m : Int) : Bool := decide (x + x < m)

/-- Go `Duration.Round(m)`: rounds `d` to the nearest multiple of `m`, half away from
zero, returning `d` unchanged when `m ≤ 0` and saturating at the int64 bounds on
overflow. `Int.tmod` is Go's `%` (truncated toward zero). -/
def durRound (d m : Int) : Int :=
  if m ≤ 0 then d
  else
    let r := d.tmod m
    if d < 0 then
      let r := -r
      if lessThanHalf r m then wrap64 (d + r)
      else
        let d1 := wrap64 (d - m + r)
        if d1 < d then d1 else minDuration
    else
      if lessThanHalf r m then wrap64 (d - r)
      else
        let d1 := wrap64 (d + m - r)
        if d1 > d then d1 else maxDuration

/-- `time.Millisecond` in nanoseconds. -/
def millisecond : Int := 1000000

/-- `time.Second` in nanoseconds. -/
def second : Int := 1000000000

/-- Go `time.fmtFrac(v, prec)`: the fraction `v mod 10^prec` rendered as
`"." ++ digits` with trailing zeros dropped (empty when the fraction is zero),
paired with `v / 10^prec`. -/
def fmtFrac (v : Nat) (prec : Nat) : String × Nat :=
  let frac := v % 10 ^ prec
  let rest := v / 10 ^ prec
  if frac = 0 then ("", rest)
  else
    let ds := toString frac
    let padded := String.mk (List.replicate (prec - ds.length) '0') ++ ds
    let trimmed := String.mk ((padded.data.reverse.dropWhile (fun c => c = '0')).reverse)
    ("." ++ trimmed, rest)

/-- Go `time.fmtInt`: decimal rendering of a nonnegative integer. -/
def fmtInt (v : Nat) : String := toString v

/-- Go `Duration.String()` on a nonnegative magnitude `u` (in nanoseconds):
sub-second durations use ns / µs / ms with the fractional part trimmed,
larger ones use `[h][m]s`. -/
def durationStringNat (u : Nat) : String :=
  if u < 1000000000 then
    if u = 0 then "0s"
    else if u < 1000 then fmtInt u ++ "ns"
    else if u < 1000000 then
      let p := fmtFrac u 3
      fmtInt p.2 ++ p.1 ++ "µs"
    else
      let p := fmtFrac u 6
      fmtInt p.2 ++ p.1 ++ "ms"
  else
    let p := fmtFrac u 9
    let sPart := fmtInt (p.2 % 60) ++ p.1 ++ "s"
    let mins := p.2 / 60
    if mins = 0 then sPart
    else
      let mPart := fmtInt (mins % 60) ++ "m" ++ sPart
      let hrs := mins / 60
      if hrs = 0 then mPart else fmtInt hrs ++ "h" ++ mPart

/-- Go `Duration.String()`: sign handling around `durationStringNat` (the uint64
magnitude `-u` of the minimum int64 equals its absolute value, hence `natAbs`). -/
def durationString (d : Int) : String :=
  if d < 0 then "-" ++ durationStringNat d.natAbs else durationStringNat d.natAbs

/-! ## Go string helpers used by the source -/

/-- Go `strings.HasPrefix(s, p)`. -/
def goHasPrefix (s p : String) : Bool := p.data.isPrefixOf s.data

/-- Go `strings.TrimPrefix(s, p)`: `s` without the leading `p`, or `s` unchanged
when `p` is not a prefix of `s`. -/
def goTrimPrefix (s p : String) : String :=
  if goHasPrefix s p then String.mk (s.data.drop p.data.length) else s

/-- Whether `unicode.IsSpace` holds of `c`: the Latin-1 space characters plus the
Unicode White_Space property. -/
def goIsSpace (c : Char) : Bool :=
  c = ' ' || c = '\t' || c = '\n' || c = '\x0b' || c = '\x0c' || c = '\r' ||
  c.toNat = 0x85 || c.toNat = 0xa0 || c.toNat = 0x1680 ||
  (0x2000 ≤ c.toNat && c.toNat ≤ 0x200a) ||
  c.toNat = 0x2028 || c.toNat = 0x2029 || c.toNat = 0x202f ||
  c.toNat = 0x205f || c.toNat = 0x3000

/-- Accumulator pass behind `goFields`: `cur` holds the current field's characters
in reverse. -/
def goFieldsAux (cur : List Char) : List Char → List String
  | [] => if cur.isEmpty then [] else [String.mk cur.reverse]
  | c :: rest =>
    if goIsSpace c then
      if cur.isEmpty then goFieldsAux [] rest
      else String.mk cur.reverse :: goFieldsAux [] rest
    else goFieldsAux (c :: cur) rest

/-- Go `strings.Fields(s)`: the whitespace-separated tokens of `s`, no empties. -/
def goFields (s : String) : List String := goFieldsAux [] s.data

/-! ## The session environment and handler outcomes -/

/-- The result of a successful `ChannelMessageSend`: the created message's channel
and ID, which `pingCommand` reads back for its edit. -/
structure Msg where
  channelID : String
  id : String
deriving DecidableEq

/-- The discordgo `Session` as the handlers consume it: the bot's own user ID,
the current heartbeat latency, and the outcome of each outbound call or metadata
fetch. `guildName`/`channelName` model `s.Guild`/`s.Channel`, which return a nil
pointer when the fetch fails (only the `Name` field is ever read). `pingElapsed`
and `interactionElapsed` are the wall-clock intervals `time.Since(start)` measures
in `pingCommand` and `pingCommandInteraction`. `editFails` and `respondFails`
record whether `ChannelMessageEdit` / `InteractionRespond` fail; the source
discards both results, so no handler reads these fields. -/
structure Session where
  selfID : String
  heartbeatLatency : Int
  sendResult : String → String → Option Msg
  guildName : String → Option String
  channelName : String → Option String
  pingElapsed : Int
  interactionElapsed : Int
  cmdCreateFails : String → Bool
  editFails : Bool
  respondFails : Bool

/-- The fields of a `discordgo.MessageCreate` the source reads. -/
structure MessageCtx where
  authorID : String
  username : String
  discriminator : String
  channelID : String
  guildID : String
  content : String

/-- An outbound gateway call made by a handler. -/
inductive Effect where
  | send (channelID text : String)
  | edit (channelID messageID text : String)
  | respond (content : String)
  | createCmd (name : String)
deriving DecidableEq

/-- What one handler execution did: the outbound calls in order, the log lines
printed (timestamps omitted), and the message of the Go runtime panic that ended
it, if any. -/
structure HRes where
  effects : List Effect := []
  logs : List String := []
  panics : Option String := none
deriving DecidableEq

/-- Sequencing: a Go runtime panic aborts the rest of the function. -/
def HRes.andThen (r : HRes) (k : Unit → HRes) : HRes :=
  match r.panics with
  | some _ => r
  | none =>
    let r2 := k ()
    { effects := r.effects ++ r2.effects, logs := r.logs ++ r2.logs, panics := r2.panics }

/-- The Go runtime's message for a nil-pointer dereference. -/
def nilDereferenceMsg : String :=
  "runtime error: invalid memory address or nil pointer dereference"

/-- The Go runtime's message for indexing past the end of a slice. -/
def indexOutOfRangeMsg : String := "runtime error: index out of range"

/-- The Go runtime's message for a failed `.(string)` type assertion (modelled). -/
def typeAssertionMsg : String := "interface conversion: value is not a string"

/-! ## Audit logging and the text-path command handlers -/

/-- The `fmt.Printf` line of `logCommandExecution`, timestamp omitted. -/
def auditLine (m : MessageCtx) (guild channel : String) : String :=
  m.username ++ "#" ++ m.discriminator ++ " (" ++ guild ++ ") in #" ++ channel ++
  ": " ++ m.content

/-- `logCommandExecution`: fetches the guild and the channel, discarding both
errors (`server, _ := s.Guild(...)`; `channel, _ := s.Channel(...)`), then prints
the audit line. When either fetch failed the returned pointer is nil and reading
its `Name` field in the `Printf` argument list panics. -/
def logCommandExecution (s : Session) (m : MessageCtx) : HRes :=
  match s.guildName m.guildID, s.channelName m.channelID with
  | some g, some c => { logs := [auditLine m g c] }
  | _, _ => { panics := some nilDereferenceMsg }

/-- `pingCommand`: audit-logs, sends "Pong!", and on send failure logs the error
and returns; otherwise edits the sent message with the measured response time
(unrounded) and the heartbeat latency rounded to the millisecond. The edit's
error is discarded by the source. -/
def pingCommand (s : Session) (m : MessageCtx) : HRes :=
  (logCommandExecution s m).andThen fun _ =>
    match s.sendResult m.channelID "Pong!" with
    | none =>
      { effects := [Effect.send m.channelID "Pong!"],
        logs := ["Error sending message:"] }
    | some msg =>
      let elapsed := s.pingElapsed
      let wsLatency := durRound s.heartbeatLatency millisecond
      let content := "Pong! Response Time: " ++ durationString elapsed ++
        " | WebSocket Ping: " ++ durationString wsLatency
      { effects := [Effect.send m.channelID "Pong!",
                    Effect.edit msg.channelID msg.id content] }

/-- `echoCommand`: audit-logs, strips the literal prefix `"!echo "` (with its
trailing space) from the raw content, and sends the remainder when it is
nonempty, the fixed prompt otherwise. The send's result is discarded. -/
def echoCommand (s : Session) (m : MessageCtx) : HRes :=
  (logCommandExecution s m).andThen fun _ =>
    let content := goTrimPrefix m.content "!echo "
    if content ≠ "" then
      { effects := [Effect.send m.channelID content] }
    else
      { effects := [Effect.send m.channelID "Please provide something to echo!"] }

/-! ## The command registry -/

/-- The name/description part of a registry entry (what `helpCommand` reads). -/
structure CommandInfo where
  name : String
  description : String
deriving DecidableEq

/-- The description of the `ping` entry in `main`. -/
def pingDescription : String :=
  "Replies with 'Pong!' and shows response time and client WebSocket ping."

/-- The description of the `echo` entry in `main`. -/
def echoDescription : String :=
  "Repeats back the message sent after the command."

/-- The description of the `help` entry in `main`. -/
def helpDescription : String :=
  "Shows the list of available commands."

/-- `helpCommand`: audit-logs, then builds one message: the header line followed
by `- !<name>: <description>` per registry entry, in order, and sends it. The
send's result is discarded. -/
def helpCommand (s : Session) (m : MessageCtx) (commands : List CommandInfo) : HRes :=
  (logCommandExecution s m).andThen fun _ =>
    let helpMessage := "Available commands:\n" ++
      String.join (commands.map fun cmd => "- !" ++ cmd.name ++ ": " ++ cmd.description ++ "\n")
    { effects := [Effect.send m.channelID helpMessage] }

/-- A registry entry: `type Command struct` of the source. -/
structure Command where
  name : String
  description : String
  handler : Session → MessageCtx → HRes

/-- The registry's name/description rows in insertion order, as `helpCommand`
sees them (the Go `help` handler is a closure over the full `commands` slice;
its output depends only on these two fields of each entry). -/
def commandInfos : List CommandInfo :=
  [⟨"ping", pingDescription⟩, ⟨"echo", echoDescription⟩, ⟨"help", helpDescription⟩]

/-- The `commands` slice built in `main`. -/
def commands : List Command :=
  [⟨"ping", pingDescription, pingCommand⟩,
   ⟨"echo", echoDescription, echoCommand⟩,
   ⟨"help", helpDescription, fun s m => helpCommand s m commandInfos⟩]

/-- The projection of the registry `helpCommand` receives agrees with the registry. -/
theorem commands_project_to_infos :
    commands.map (fun cmd => CommandInfo.mk cmd.name cmd.description) = commandInfos := rfl

/-! ## The text-command dispatcher -/

/-- `messageHandler`: ignores the bot's own messages and non-`!` content,
tokenizes, strips the `!` from the first token, invokes the first registry entry
with that exact name, and otherwise sends the fixed invalid-command notice. -/
def messageHandler (commands : List Command) (s : Session) (m : MessageCtx) : HRes :=
  if m.authorID = s.selfID then {}
  else if goHasPrefix m.content "!" = false then {}
  else
    match goFields m.content with
    | [] => {}
    | f0 :: _ =>
      let cmdName := String.mk (f0.data.drop 1)
      match commands.find? (fun cmd => cmd.name == cmdName) with
      | some cmd => cmd.handler s m
      | none =>
        { effects := [Effect.send m.channelID
            "Invalid command. Try !help for a list of commands."] }

/-! ## Interactions -/

/-- `discordgo.InteractionApplicationCommand` (the `InteractionType` constants
are iota-numbered from 1: Ping, ApplicationCommand, MessageComponent, ...). -/
def interactionApplicationCommand : Nat := 2

/-- A Go `interface` value carried by an option: the `.(string)` type
assertion in `echoCommandInteraction` panics unless it holds a string. -/
inductive GoValue where
  | str (s : String)
  | nonString
deriving DecidableEq

/-- One `*discordgo.ApplicationCommandInteractionDataOption`. -/
structure InteractionOption where
  name : String
  value : Option GoValue
deriving DecidableEq

/-- `discordgo.ApplicationCommandInteractionData` as the source reads it; the
option slice holds pointers, so an element can itself be nil. -/
structure InteractionData where
  name : String
  options : List (Option InteractionOption)
deriving DecidableEq

/-- A `discordgo.InteractionCreate` as the source reads it. `typ` is `i.Type`;
`data` is `i.Data`, which discordgo's unmarshalling guarantees to be
`ApplicationCommandInteractionData` whenever `typ` is 2, so the source's type
assertion on it is modelled as always succeeding. -/
structure InteractionCtx where
  typ : Nat
  data : InteractionData
deriving DecidableEq

/-- `pingCommandInteraction`: formats the rounded heartbeat latency, measures
the (unrounded) interval spent building the reply, and responds once. The
respond call's error is discarded. -/
def pingCommandInteraction (s : Session) (_i : InteractionCtx) : HRes :=
  let wsLatency := durRound s.heartbeatLatency millisecond
  let content := "Pong! WebSocket Ping: " ++ durationString wsLatency
  let elapsed := s.interactionElapsed
  let content2 := content ++ (" | Response Time: " ++ durationString elapsed)
  { effects := [Effect.respond content2] }

/-- `echoCommandInteraction`: reads `Options[0]` (panicking when the option
slice is empty), responds with the fixed prompt when that option or its value
is nil, and otherwise responds with the value's `.(string)` assertion. All
respond errors are discarded. -/
def echoCommandInteraction (_s : Session) (i : InteractionCtx) : HRes :=
  match i.data.options with
  | [] => { panics := some indexOutOfRangeMsg }
  | messageOption :: _ =>
    match messageOption with
    | none => { effects := [Effect.respond "Please provide something to echo!"] }
    | some opt =>
      match opt.value with
      | none => { effects := [Effect.respond "Please provide something to echo!"] }
      | some (GoValue.str v) => { effects := [Effect.respond v] }
      | some GoValue.nonString => { panics := some typeAssertionMsg }

/-- The interaction handler added in `main`: only application-command
interactions are handled, and only the names `"ping"` and `"echo"` (a Go
`switch` with those two cases and no default). -/
def interactionHandler (s : Session) (i : InteractionCtx) : HRes :=
  if i.typ = interactionApplicationCommand then
    if i.data.name = "ping" then pingCommandInteraction s i
    else if i.data.name = "echo" then echoCommandInteraction s i
    else {}
  else {}

/-! ## The ready-event slash-command registration -/

/-- The ready handler added in `main`: creates the `ping` slash command, and on
failure logs the error and returns — the `echo` registration is then never
reached. A failed `echo` registration is logged too. (The two `logInfo` startup
lines are omitted: their text embeds the wall-clock startup duration.) -/
def readyHandler (s : Session) : HRes :=
  if s.cmdCreateFails "ping" then
    { effects := [Effect.createCmd "ping"],
      logs := ["Error creating 'ping' slash command:"] }
  else if s.cmdCreateFails "echo" then
    { effects := [Effect.createCmd "ping", Effect.createCmd "echo"],
      logs := ["Error creating 'echo' slash command:"] }
  else
    { effects := [Effect.createCmd "ping", Effect.createCmd "echo"] }

/-! ## The spec's wording of the text-path ping reply (for the C5 comparison) -/

/-- The final text-path ping reply as the spec words it: both the measured
response time and the latency rounded to whole milliseconds. Stated from the
spec's sentence, to be compared with what `pingCommand` actually formats. -/
def specPingTextContent (elapsed wsLatency : Int) : String :=
  "Pong! Response Time: " ++ durationString (durRound elapsed millisecond) ++
  " | WebSocket Ping: " ++ durationString (durRound wsLatency millisecond)

/-! ## Concrete fixtures -/

/-- A session in which every outbound call and metadata fetch succeeds. -/
def okSession : Session where
  selfID := "bot"
  heartbeatLatency := 42000000
  sendResult := fun ch _ => some ⟨ch, "m1"⟩
  guildName := fun _ => some "guild"
  channelName := fun _ => some "general"
  pingElapsed := 1500000
  interactionElapsed := 2000
  cmdCreateFails := fun _ => false
  editFails := false
  respondFails := false

/-- `okSession` with the guild metadata fetch failing (nil guild pointer). -/
def guildFailSession : Session :=
  { okSession with guildName := fun _ => none }

/-- `okSession` with every `ChannelMessageSend` failing. -/
def sendFailSession : Session :=
  { okSession with sendResult := fun _ _ => none }

/-- `okSession` with the `ping` slash-command registration failing. -/
def pingRegFailSession : Session :=
  { okSession with cmdCreateFails := fun n => n == "ping" }

/-- `okSession` with the message edit and the interaction respond failing
(failures the source never observes: it discards both results). -/
def failAllSession : Session :=
  { okSession with editFails := true, respondFails := true }

/-- A message from a regular user in channel `chan1` of guild `guild1`. -/
def msgWith (content : String) : MessageCtx :=
  ⟨"user1", "alice", "0001", "chan1", "guild1", content⟩

/-! ## C1 — slash-command registration on the ready event -/

/-- C1 counterexample: when the `ping` slash-command registration fails, the
ready handler's only registration attempt is `ping` — the `echo` registration
is never attempted, contrary to the claim that a failure to register `ping`
does not prevent the registration attempt for `echo`. -/
theorem C1_counterexample :
    (readyHandler pingRegFailSession).effects = [Effect.createCmd "ping"] ∧
    Effect.createCmd "echo" ∉ (readyHandler pingRegFailSession).effects := by
  decide

/-- C1 (amended): the ready handler attempts the `ping` registration first and,
when that fails, logs the error and returns early, so `echo` is only attempted
when `ping` succeeded; no registration failure panics (startup itself is not
aborted — the session stays open and the failure is only logged). -/
theorem C1_ready_registration (s : Session) :
    (readyHandler s).effects =
      (if s.cmdCreateFails "ping" then [Effect.createCmd "ping"]
       else [Effect.createCmd "ping", Effect.createCmd "echo"]) ∧
    (readyHandler s).panics = none := by
  unfold readyHandler
  cases h : s.cmdCreateFails "ping" <;>
    cases h2 : s.cmdCreateFails "echo" <;> simp [h, h2]

/-! ## C2 — the text-form echo handler -/

/-- C2: the text echo handler at the claim's inputs. `"!echo hello world"` does
echo `"hello world"`, but the bare content `"!echo"` is not matched by the
trim of the literal `"!echo "` (trailing space included), is left unchanged
and nonempty, and is sent back verbatim — the handler replies `"!echo"`, not
the fixed prompt the claim requires. The prompt is only reachable from the
content `"!echo "` whose trimmed remainder is empty. -/
theorem C2_echo_bare_input :
    (echoCommand okSession (msgWith "!echo hello world")).effects =
      [Effect.send "chan1" "hello world"] ∧
    (echoCommand okSession (msgWith "!echo")).effects =
      [Effect.send "chan1" "!echo"] ∧
    (echoCommand okSession (msgWith "!echo ")).effects =
      [Effect.send "chan1" "Please provide something to echo!"] := by
  refine ⟨?_, ?_, ?_⟩ <;> rfl

/-! ## C3 — audit logging when metadata fetches fail -/

/-- C3: when the guild metadata fetch fails during audit logging, the audit
line is not printed with an empty field — `logCommandExecution` panics on the
nil guild pointer, and the dispatched handler performs no outbound call at
all, contrary to the claim that the failure never crashes the handler. -/
theorem C3_audit_lookup_failure :
    (logCommandExecution guildFailSession (msgWith "!ping")).panics =
      some nilDereferenceMsg ∧
    (logCommandExecution guildFailSession (msgWith "!ping")).logs = [] ∧
    (pingCommand guildFailSession (msgWith "!ping")).effects = [] ∧
    (pingCommand guildFailSession (msgWith "!ping")).panics =
      some nilDereferenceMsg := by
  refine ⟨rfl, rfl, rfl, rfl⟩

/-! ## C4 — the interaction-form echo handler -/

/-- C4: an `echo` interaction carrying an empty option list makes
`echoCommandInteraction` panic (`Options[0]` indexes an empty slice) with no
response sent, contrary to the claim that it responds with the fixed prompt
and does not crash. A nil first option or an absent value does yield the
prompt, and a present string value is echoed verbatim. -/
theorem C4_echo_interaction_empty_options :
    (echoCommandInteraction okSession ⟨2, ⟨"echo", []⟩⟩).panics =
      some indexOutOfRangeMsg ∧
    (echoCommandInteraction okSession ⟨2, ⟨"echo", []⟩⟩).effects = [] ∧
    (echoCommandInteraction okSession
        ⟨2, ⟨"echo", [some ⟨"message", none⟩]⟩⟩).effects =
      [Effect.respond "Please provide something to echo!"] ∧
    (echoCommandInteraction okSession
        ⟨2, ⟨"echo", [some ⟨"message", some (GoValue.str "hi")⟩]⟩⟩).effects =
      [Effect.respond "hi"] := by
  refine ⟨rfl, rfl, rfl, rfl⟩

/-! ## C5 — the ping reply formats -/

/-- C5 counterexample: with a measured response time of 1.5 ms, the text-path
ping edit contains the unrounded value `1.5ms`, while the spec's wording (both
fields rounded to whole milliseconds, `specPingTextContent`) demands `2ms` —
so the code's reply is not the claimed one. -/
theorem C5_counterexample :
    (pingCommand okSession (msgWith "!ping")).effects =
      [Effect.send "chan1" "Pong!",
       Effect.edit "chan1" "m1"
         "Pong! Response Time: 1.5ms | WebSocket Ping: 42ms"] ∧
    specPingTextContent 1500000 42000000 =
      "Pong! Response Time: 2ms | WebSocket Ping: 42ms" ∧
    "Pong! Response Time: 1.5ms | WebSocket Ping: 42ms" ≠
      specPingTextContent 1500000 42000000 := by
  refine ⟨rfl, rfl, by decide⟩

/-- C5 (amended): the text-path final reply is exactly
`Pong! Response Time: <d> | WebSocket Ping: <d>` and the interaction-path
response exactly `Pong! WebSocket Ping: <d> | Response Time: <d>` (reversed
field order), where in both the heartbeat latency is rounded to whole
milliseconds but the measured response time is formatted unrounded. -/
theorem C5_ping_reply_formats (s : Session) (m : MessageCtx) (i : InteractionCtx)
    (g c : String) (msg : Msg)
    (hg : s.guildName m.guildID = some g)
    (hc : s.channelName m.channelID = some c)
    (hs : s.sendResult m.channelID "Pong!" = some msg) :
    (pingCommand s m).effects =
      [Effect.send m.channelID "Pong!",
       Effect.edit msg.channelID msg.id
         ("Pong! Response Time: " ++ durationString s.pingElapsed ++
          " | WebSocket Ping: " ++
          durationString (durRound s.heartbeatLatency millisecond))] ∧
    (pingCommandInteraction s i).effects =
      [Effect.respond
        (("Pong! WebSocket Ping: " ++
          durationString (durRound s.heartbeatLatency millisecond)) ++
         (" | Response Time: " ++ durationString s.interactionElapsed))] := by
  constructor
  · unfold pingCommand logCommandExecution HRes.andThen
    rw [hg, hc, hs]
    rfl
  · rfl

/-- C5 witness: the amended format theorem applied to the concrete fixture. -/
theorem C5_ping_reply_formats_witness :
    (pingCommand okSession (msgWith "!ping")).effects =
      [Effect.send "chan1" "Pong!",
       Effect.edit "chan1" "m1"
         ("Pong! Response Time: " ++ durationString 1500000 ++
          " | WebSocket Ping: " ++
          durationString (durRound 42000000 millisecond))] ∧
    (pingCommandInteraction okSession ⟨2, ⟨"ping", []⟩⟩).effects =
      [Effect.respond
        (("Pong! WebSocket Ping: " ++
          durationString (durRound 42000000 millisecond)) ++
         (" | Response Time: " ++ durationString 2000))] :=
  C5_ping_reply_formats okSession (msgWith "!ping") ⟨2, ⟨"ping", []⟩⟩
    "guild" "general" ⟨"chan1", "m1"⟩ rfl rfl rfl

/-! ## C6 — outbound call failures inside handlers -/

/-- C6 counterexample: outbound failures are not all logged. With the edit and
respond calls failing, the text ping handler still logs only the audit line —
no error entry — and with every send failing, the echo handler likewise logs
nothing beyond the audit line even though its send failed; in both cases the
handler runs to completion rather than logging the failure as the claim
states. -/
theorem C6_counterexample :
    failAllSession.editFails = true ∧
    (pingCommand failAllSession (msgWith "!ping")).logs =
      [auditLine (msgWith "!ping") "guild" "general"] ∧
    sendFailSession.sendResult "chan1" "hi" = none ∧
    (echoCommand sendFailSession (msgWith "!echo hi")).effects =
      [Effect.send "chan1" "hi"] ∧
    (echoCommand sendFailSession (msgWith "!echo hi")).logs =
      [auditLine (msgWith "!echo hi") "guild" "general"] := by
  refine ⟨rfl, rfl, rfl, rfl, rfl⟩

/-- C6 (amended): the only outbound failure any handler logs (with an early
return) is the text ping handler's initial send — on its failure the edit is
never attempted and `"Error sending message:"` is logged. The other outbound
failures (ping's edit, the sends of echo and help, the interaction responds)
are silently discarded: whatever the send outcome, echo's and help's logs are
exactly the audit line and no handler panics on an outbound failure. -/
theorem C6_outbound_failure_handling (s : Session) (m : MessageCtx) (g c : String)
    (hg : s.guildName m.guildID = some g)
    (hc : s.channelName m.channelID = some c)
    (hs : s.sendResult m.channelID "Pong!" = none) :
    (pingCommand s m).effects = [Effect.send m.channelID "Pong!"] ∧
    (pingCommand s m).logs = [auditLine m g c, "Error sending message:"] ∧
    (pingCommand s m).panics = none ∧
    (echoCommand s m).logs = [auditLine m g c] ∧
    (echoCommand s m).panics = none ∧
    (helpCommand s m commandInfos).logs = [auditLine m g c] ∧
    (helpCommand s m commandInfos).panics = none := by
  unfold pingCommand echoCommand helpCommand logCommandExecution HRes.andThen
  rw [hg, hc, hs]
  refine ⟨rfl, rfl, rfl, ?_, ?_, rfl, rfl⟩ <;>
    by_cases h : goTrimPrefix m.content "!echo " ≠ "" <;> simp [h]

/-- C6 witness: the amended failure-handling theorem at the concrete
all-sends-fail fixture. -/
theorem C6_outbound_failure_handling_witness :
    (pingCommand sendFailSession (msgWith "!ping")).effects =
      [Effect.send "chan1" "Pong!"] ∧
    (pingCommand sendFailSession (msgWith "!ping")).logs =
      [auditLine (msgWith "!ping") "guild" "general", "Error sending message:"] ∧
    (pingCommand sendFailSession (msgWith "!ping")).panics = none ∧
    (echoCommand sendFailSession (msgWith "!ping")).logs =
      [auditLine (msgWith "!ping") "guild" "general"] ∧
    (echoCommand sendFailSession (msgWith "!ping")).panics = none ∧
    (helpCommand sendFailSession (msgWith "!ping") commandInfos).logs =
      [auditLine (msgWith "!ping") "guild" "general"] ∧
    (helpCommand sendFailSession (msgWith "!ping") commandInfos).panics = none :=
  C6_outbound_failure_handling sendFailSession (msgWith "!ping")
    "guild" "general" rfl rfl rfl

/-! ## Dispatcher helper lemmas -/

/-- String `==` is false when the right operand is known different. -/
theorem beq_false_of_ne_symm (n a : String) (h : n ≠ a) : (a == n) = false := by
  cases hb : (a == n)
  · rfl
  · exact absurd (eq_of_beq hb).symm h

/-- Resolution against the concrete registry: `find?` returns the `ping`,
`echo` or `help` entry exactly on the case-sensitively equal name, and
nothing otherwise. -/
theorem find_commands_eq (n : String) :
    commands.find? (fun cmd => cmd.name == n) =
      (if n = "ping" then some ⟨"ping", pingDescription, pingCommand⟩
       else if n = "echo" then some ⟨"echo", echoDescription, echoCommand⟩
       else if n = "help" then
         some ⟨"help", helpDescription, fun s m => helpCommand s m commandInfos⟩
       else none) := by
  by_cases h1 : n = "ping"
  · subst h1; rfl
  · by_cases h2 : n = "echo"
    · subst h2; rfl
    · by_cases h3 : n = "help"
      · subst h3; rfl
      · rw [if_neg h1, if_neg h2, if_neg h3]
        simp only [commands, List.find?, beq_false_of_ne_symm n "ping" h1,
          beq_false_of_ne_symm n "echo" h2, beq_false_of_ne_symm n "help" h3]

/-! ## C7 — silent discard of self and non-prefixed messages -/

/-- C7: for any registry, a message whose author is the bot itself, or whose
content does not start with `!`, makes the text dispatcher return before
resolving anything: no handler output, no outbound message, no log, no panic. -/
theorem C7_silent_discard (cmds : List Command) (s : Session) (m : MessageCtx)
    (h : m.authorID = s.selfID ∨ goHasPrefix m.content "!" = false) :
    messageHandler cmds s m = ⟨[], [], none⟩ := by
  unfold messageHandler
  by_cases h1 : m.authorID = s.selfID
  · simp [h1]
  · rcases h with h | h
    · exact absurd h h1
    · simp [h1, h]

/-- C7 witness: a non-prefixed message is discarded with no effects. -/
theorem C7_silent_discard_witness :
    messageHandler commands okSession (msgWith "hello there") = ⟨[], [], none⟩ :=
  C7_silent_discard commands okSession (msgWith "hello there") (Or.inr rfl)

/-! ## C8 — command-name resolution in the text dispatcher -/

/-- C8: for a user message starting with `!`, the dispatcher takes the first
whitespace token, strips the leading `!`, and resolves case-sensitively: the
names `ping`, `echo` and `help` invoke exactly that entry's handler, and any
other token (e.g. `!Ping`) invokes no handler and sends only the fixed
invalid-command notice to the originating channel. -/
theorem C8_command_resolution (s : Session) (m : MessageCtx)
    (f0 : String) (rest : List String)
    (hself : ¬ m.authorID = s.selfID)
    (hpre : goHasPrefix m.content "!" = true)
    (hf : goFields m.content = f0 :: rest) :
    (String.mk (f0.data.drop 1) = "ping" →
       messageHandler commands s m = pingCommand s m) ∧
    (String.mk (f0.data.drop 1) = "echo" →
       messageHandler commands s m = echoCommand s m) ∧
    (String.mk (f0.data.drop 1) = "help" →
       messageHandler commands s m = helpCommand s m commandInfos) ∧
    (String.mk (f0.data.drop 1) ∉ (["ping", "echo", "help"] : List String) →
       messageHandler commands s m =
         ⟨[Effect.send m.channelID
             "Invalid command. Try !help for a list of commands."], [], none⟩) := by
  have hbase : messageHandler commands s m =
      (match commands.find? (fun cmd => cmd.name == String.mk (f0.data.drop 1)) with
       | some cmd => cmd.handler s m
       | none =>
         ⟨[Effect.send m.channelID
             "Invalid command. Try !help for a list of commands."], [], none⟩) := by
    unfold messageHandler
    rw [if_neg hself, if_neg (by simp [hpre]), hf]
  refine ⟨fun h => ?_, fun h => ?_, fun h => ?_, fun h => ?_⟩
  · rw [hbase, h]; rfl
  · rw [hbase, h]; rfl
  · rw [hbase, h]; rfl
  · simp only [List.mem_cons, List.not_mem_nil, or_false, not_or] at h
    obtain ⟨h1, h2, h3⟩ := h
    rw [hbase, find_commands_eq, if_neg h1, if_neg h2, if_neg h3]

/-- C8 witness: `!Ping` (wrong case) resolves to no handler and draws only the
invalid-command notice. -/
theorem C8_command_resolution_witness :
    messageHandler commands okSession (msgWith "!Ping") =
      ⟨[Effect.send "chan1" "Invalid command. Try !help for a list of commands."],
       [], none⟩ :=
  (C8_command_resolution okSession (msgWith "!Ping") "!Ping" []
    (by decide) rfl rfl).2.2.2 (by decide)

/-! ## C9 — interactions that are ignored -/

/-- C9: the interaction dispatcher produces no outbound call, no log and no
panic for every interaction that is not an application-command invocation,
and likewise for every application-command interaction whose name is neither
`ping` nor `echo` (`help` included) — no error response is sent in either
case. -/
theorem C9_interaction_silently_dropped (s : Session) (i : InteractionCtx) :
    (i.typ ≠ interactionApplicationCommand →
       interactionHandler s i = ⟨[], [], none⟩) ∧
    (i.data.name ≠ "ping" → i.data.name ≠ "echo" →
       interactionHandler s i = ⟨[], [], none⟩) := by
  constructor
  · intro h
    simp [interactionHandler, h]
  · intro h1 h2
    by_cases ht : i.typ = interactionApplicationCommand <;>
      simp [interactionHandler, ht, h1, h2]

/-- C9 witness: an application-command interaction named `help` yields zero
response calls. -/
theorem C9_interaction_silently_dropped_witness :
    interactionHandler okSession ⟨2, ⟨"help", []⟩⟩ = ⟨[], [], none⟩ :=
  (C9_interaction_silently_dropped okSession ⟨2, ⟨"help", []⟩⟩).2
    (by decide) (by decide)

/-! ## C10 — the help listing -/

/-- C10: the help handler (when the audit-log metadata fetches succeed) sends
exactly one message: the header line, then one `- !<name>: <description>` line
per registry entry, each registered command exactly once in insertion order —
ping, echo, help. -/
theorem C10_help_lists_registry (s : Session) (m : MessageCtx) (g c : String)
    (hg : s.guildName m.guildID = some g)
    (hc : s.channelName m.channelID = some c) :
    (helpCommand s m commandInfos).effects =
      [Effect.send m.channelID
        ("Available commands:\n" ++
         ("- !ping: " ++ pingDescription ++ "\n") ++
         ("- !echo: " ++ echoDescription ++ "\n") ++
         ("- !help: " ++ helpDescription ++ "\n"))] := by
  unfold helpCommand logCommandExecution HRes.andThen
  rw [hg, hc]
  rfl

/-- C10 witness: the help theorem at the concrete fixture. -/
theorem C10_help_lists_registry_witness :
    (helpCommand okSession (msgWith "!help") commandInfos).effects =
      [Effect.send "chan1"
        ("Available commands:\n" ++
         ("- !ping: " ++ pingDescription ++ "\n") ++
         ("- !echo: " ++ echoDescription ++ "\n") ++
         ("- !help: " ++ helpDescription ++ "\n"))] :=
  C10_help_lists_registry okSession (msgWith "!help") "guild" "general" rfl rfl

end GODiscord
